/-
Spec2Proof.lean

A verification development for the silo-monitoring backend
(FastAPI + MongoDB telemetry ingestion / alerting pipeline).

The Python sources are shallowly embedded as Lean definitions:

* `ReadingDoc`, `fieldsIdentical`, `dedupDecision`
    — `app/services/thing_speak.py`, `fetch_and_store` lines 84-130
      (duplicate-suppression gate over the last stored reading).
* `luminosityEffects`
    — `app/services/thing_speak.py`, lines 132-179
      (silo-opened transition event and immediate luminosity-flag alert).
* `apply_threshold_rules`
    — modelled from the spec (see its doc comment): the module
      `app/utils.py` imported at `thing_speak.py:183` is not in the
      source tree.
* `fetch_and_store_effects`
    — the accepted-reading effect trace of `fetch_and_store`
      (insertions and `notify_alert` invocations, lines 128-229).
* `ack_alert` — `app/routes/alerts.py` lines 23-27.
* `notify_alert`, `pushLoop` — `app/services/notification.py`
  lines 121-174 (channel fan-out and push-subscription deletion).
* `broadcast` — `app/services/ws.py`, `ConnectionManager.broadcast`
  lines 22-33.

Floats of the source are modelled as rationals (the source performs only
exact comparisons on them: `!=`, `<`, `<=`, `>=`); timestamps are
rationals counting seconds; Mongo documents are structures with
`Option` fields where the source tolerates absence.
-/
import Mathlib

namespace SiloBackend

/-! ## Reading documents (thing_speak.py lines 66-79)

The document inserted into `db.readings`: `temp_C` and `rh_pct` are
always populated (`float(f.get(..) or 0.0)`), while `co2_ppm_est`,
`mq2_raw`, `luminosity_alert` and `lux` may be `None`. -/

structure ReadingDoc where
  silo_id : String
  timestamp : ℚ
  temp_C : ℚ
  rh_pct : ℚ
  co2_ppm_est : Option ℚ
  mq2_raw : Option ℤ
  luminosity_alert : Option ℤ
  lux : Option ℚ
  deriving DecidableEq, Repr

/-- None-safe equality of one compared field, exactly as in the loop at
thing_speak.py lines 91-105: present-vs-absent is a difference, two
absent values are identical, two present values are compared exactly. -/
def optFieldEq {α : Type} [DecidableEq α] : Option α → Option α → Bool
  | none, none => true
  | some a, some b => a == b
  | _, _ => false

/-- thing_speak.py lines 89-105: the stored comparison field set is
`["temp_C", "rh_pct", "co2_ppm_est", "mq2_raw", "luminosity_alert", "lux"]`,
compared in that order with exact equality and None-safety. -/
def fieldsIdentical (last doc : ReadingDoc) : Bool :=
  last.temp_C == doc.temp_C &&
  last.rh_pct == doc.rh_pct &&
  optFieldEq last.co2_ppm_est doc.co2_ppm_est &&
  optFieldEq last.mq2_raw doc.mq2_raw &&
  optFieldEq last.luminosity_alert doc.luminosity_alert &&
  optFieldEq last.lux doc.lux

/-- config.py line 56: `IDENTICAL_READINGS_MIN_SECONDS` defaults to
18000 seconds (5 hours). -/
def IDENTICAL_READINGS_MIN_SECONDS : ℚ := 18000

inductive DedupDecision where
  | store
  | suppress
  deriving DecidableEq, Repr

/-- The deduplication gate of `fetch_and_store`, thing_speak.py lines
84-130.  `fetchLast` models the outcome of querying the most recent
reading of the silo: `none` = the query raised (caught at line 125-126,
ingestion proceeds), `some none` = no prior reading, `some (some last)`
= the prior reading.  A new reading identical on all six compared
fields is suppressed when the elapsed time is strictly below the
configured minimum (`delta < IDENTICAL_READINGS_MIN_SECONDS`, line
121); otherwise it is inserted (line 129). -/
def dedupDecision (minSec : ℚ) (fetchLast : Option (Option ReadingDoc))
    (doc : ReadingDoc) : DedupDecision :=
  match fetchLast with
  | none => .store
  | some none => .store
  | some (some last) =>
    if fieldsIdentical last doc then
      if doc.timestamp - last.timestamp < minSec then .suppress else .store
    else .store

/-- The deduplication comparison field set as the spec words it,
written for comparison with the `fieldsIdentical` of the source:
"compare a fixed comparison field set {temperature, humidity, gas,
luminosity flag, lux}" — five attributes, with the gas concentration
of the reading taken as the stored `co2_ppm_est`.  The source compares
a sixth stored field, `mq2_raw`, that this set does not contain. -/
def specComparisonIdentical (last doc : ReadingDoc) : Bool :=
  last.temp_C == doc.temp_C &&
  last.rh_pct == doc.rh_pct &&
  optFieldEq last.co2_ppm_est doc.co2_ppm_est &&
  optFieldEq last.luminosity_alert doc.luminosity_alert &&
  optFieldEq last.lux doc.lux

/-! ## Alert acknowledgment (app/routes/alerts.py lines 23-27) -/

/-- The acknowledgment-relevant state of one alert document. -/
structure AlertAckState where
  acknowledged : Bool
  ack_by : Option String
  ack_at : Option ℚ
  deriving DecidableEq, Repr

/-- alerts.py lines 23-27: `ack_alert` performs an unconditional
`update_one({"_id": id}, {"$set": {"acknowledged": True, "ack_by":
user["_id"], "ack_at": utcnow()}})` — no read of the previous state. -/
def ack_alert (user : String) (now : ℚ) (_a : AlertAckState) : AlertAckState :=
  { acknowledged := true, ack_by := some user, ack_at := some now }

/-! ## Luminosity event detector (thing_speak.py lines 132-179) -/

/-- config.py line 51: dark-environment lux threshold, default 10. -/
def LUMINOSITY_DARK_THRESHOLD : ℚ := 10

/-- config.py line 52: open/illuminated lux threshold, default 100. -/
def LUMINOSITY_OPEN_THRESHOLD : ℚ := 100

/-- Fixed message of the silo-opened warning alert (thing_speak.py
line 159). -/
def lumWarnMsg : String :=
  "Silo aberto: mudança de luminosidade detectada (possível manutenção)"

/-- Fixed message of the luminosity-flag critical alert (thing_speak.py
line 171). -/
def lumCritMsg : String :=
  "Alerta de luminosidade detectado (possível fogo no silo)"

/-- The `value` payload of an alert document: the source stores
structurally different objects per alert kind (thing_speak.py lines
160, 172, 216). -/
inductive AlertValue where
  | lumTransition (prev_lux lux : ℚ)
  | lumFlag (lux : Option ℚ) (flag : Option ℤ)
  | metricVal (v limit : ℚ)
  | score (s : ℚ)
  deriving DecidableEq, Repr

/-- Alert document as written to `db.alerts` (ids and timestamps
omitted; all inserted alerts carry `acknowledged = False`). -/
structure AlertDocF where
  silo_id : String
  level : String
  message : String
  value : AlertValue
  deriving DecidableEq, Repr

/-- SiloEvent document as written to `db.silo_events`
(thing_speak.py lines 146-152). -/
structure SiloEventDoc where
  silo_id : String
  event_type : String
  payload_prev_lux : ℚ
  payload_lux : ℚ
  deriving DecidableEq, Repr

/-- One observable effect of `fetch_and_store` after the dedup gate:
a database insertion or a `notify_alert` invocation. -/
inductive PipeEffect where
  | insertReading (doc : ReadingDoc)
  | insertEvent (e : SiloEventDoc)
  | insertAlert (a : AlertDocF)
  | notify (a : AlertDocF)
  deriving DecidableEq, Repr

/-- thing_speak.py lines 132-179.  The argument `prev_lux` is the lux
value of the prior reading (from the pre-insertion fetch; `none` when
there is no prior reading, the fetch failed, or the prior has no lux).  If
`prev_lux ≤ dark` and the current `lux ≥ open`, one `silo_opened`
event and one warning alert are written; independently, if the
current `luminosity_alert` flag equals 1, one critical alert is
written. -/
def luminosityEffects (dark openThr : ℚ) (prev_lux : Option ℚ)
    (doc : ReadingDoc) : List PipeEffect :=
  let transition : List PipeEffect :=
    match prev_lux, doc.lux with
    | some p, some l =>
      if p ≤ dark ∧ openThr ≤ l then
        [.insertEvent ⟨doc.silo_id, "silo_opened", p, l⟩,
         .insertAlert ⟨doc.silo_id, "warning", lumWarnMsg, .lumTransition p l⟩]
      else []
    | _, _ => []
  let flagAlert : List PipeEffect :=
    if doc.luminosity_alert == some 1 then
      [.insertAlert ⟨doc.silo_id, "critical", lumCritMsg,
                     .lumFlag doc.lux doc.luminosity_alert⟩]
    else []
  transition ++ flagAlert

/-! ## Threshold rule engine -/

/-- Threshold configuration of a silo (app/models.py lines 6-10):
all three limits optional. -/
structure Thresholds where
  max_temp : Option ℚ
  max_humidity : Option ℚ
  max_gas : Option ℚ
  deriving DecidableEq, Repr

/-- Candidate alert dictionary as consumed by the loop at
thing_speak.py lines 209-223 (`a.get("level", "critical")`,
`a.get("message")`, `a.get("value")`); `metric` records which metric a
threshold candidate refers to. -/
structure CandidateAlert where
  level : String
  metric : String
  message : String
  value : AlertValue
  deriving DecidableEq, Repr

/-- Modelled from the spec: one metric check of the threshold rule
engine.  The function `apply_threshold_rules` lives in `app/utils.py`,
which `thing_speak.py:183` imports but which is absent from the source
tree; spec §4.4 defines it: "if the configured limit is present and
the corresponding Reading value is present and strictly exceeds the
limit, produce one candidate Alert (severity \"critical\", message
identifying which metric and value breached which configured limit).
Absent limits or absent reading values silently skip that check." -/
def checkMetric (name msg : String) (value limit : Option ℚ) :
    List CandidateAlert :=
  match limit, value with
  | some m, some v =>
    if m < v then [⟨"critical", name, msg, .metricVal v m⟩] else []
  | _, _ => []

def tempMsg : String := "Temperatura acima do limite configurado"
def humMsg : String := "Umidade acima do limite configurado"
def gasMsg : String := "Gás acima do limite configurado"

/-- Modelled from the spec: `apply_threshold_rules` of the missing
`app/utils.py` (spec §4.4): evaluate the three pairs
{temperature vs max_temp, humidity vs max_humidity, gas vs max_gas}
independently; each breach yields its own critical candidate alert. -/
def apply_threshold_rules (th : Thresholds)
    (temperature humidity gas : Option ℚ) : List CandidateAlert :=
  checkMetric "temperature" tempMsg temperature th.max_temp ++
  checkMetric "humidity" humMsg humidity th.max_humidity ++
  checkMetric "gas" gasMsg gas th.max_gas

/-- Candidate appended when the optional anomaly-detection hook flags
the reading (thing_speak.py line 205). -/
def anomalyCandidate (s : ℚ) : CandidateAlert :=
  ⟨"warning", "ml", "Anomalia detectada (ML)", .score s⟩

/-- Alert document built from one candidate in the loop at
thing_speak.py lines 211-219. -/
def mkAlertDoc (sid : String) (a : CandidateAlert) : AlertDocF :=
  ⟨sid, a.level, a.message, a.value⟩

/-- The candidate-alert list of one accepted reading: threshold
candidates (thing_speak.py line 197) plus, when the optional anomaly
signal is present and flags the reading, one warning candidate
(lines 201-207). `anomaly = none` models both an absent ML module and
a failed detection call (both caught). -/
def candidateAlerts (th : Thresholds) (anomaly : Option (Bool × ℚ))
    (doc : ReadingDoc) : List CandidateAlert :=
  let base := apply_threshold_rules th (some doc.temp_C) (some doc.rh_pct)
    doc.co2_ppm_est
  match anomaly with
  | some (true, s) => base ++ [anomalyCandidate s]
  | _ => base

/-- For each candidate: persist the alert, then dispatch it
(thing_speak.py lines 209-223). -/
def postProcessEffects (sid : String) (cands : List CandidateAlert) :
    List PipeEffect :=
  cands.flatMap fun a => [.insertAlert (mkAlertDoc sid a),
                          .notify (mkAlertDoc sid a)]

/-- The lux value of the prior reading as seen by the luminosity check
(thing_speak.py lines 134-140): available only when the pre-insertion
fetch succeeded and returned a prior reading. -/
def prevLuxOf : Option (Option ReadingDoc) → Option ℚ
  | some (some last) => last.lux
  | _ => none

/-- The effect trace of one `fetch_and_store` cycle after the reading
has been normalised: the dedup gate either suppresses the reading
(no effects) or the reading is inserted, the luminosity detector runs
(using the pre-insertion fetch as prior state, thing_speak.py lines
134-140), and every threshold/anomaly candidate is persisted and
dispatched. -/
def fetch_and_store_effects (dark openThr minSec : ℚ) (th : Thresholds)
    (fetchLast : Option (Option ReadingDoc)) (anomaly : Option (Bool × ℚ))
    (doc : ReadingDoc) : List PipeEffect :=
  match dedupDecision minSec fetchLast doc with
  | .suppress => []
  | .store =>
    .insertReading doc ::
      (luminosityEffects dark openThr (prevLuxOf fetchLast) doc ++
       postProcessEffects doc.silo_id (candidateAlerts th anomaly doc))

/-! ## Trace extractors -/

/-- Events written to `db.silo_events` within an effect trace. -/
def eventsOf (l : List PipeEffect) : List SiloEventDoc :=
  l.filterMap fun e =>
    match e with
    | .insertEvent ev => some ev
    | _ => none

/-- Alerts written to `db.alerts` within an effect trace. -/
def alertsOf (l : List PipeEffect) : List AlertDocF :=
  l.filterMap fun e =>
    match e with
    | .insertAlert a => some a
    | _ => none

/-- Alerts passed to `notify_alert` within an effect trace. -/
def notifiedOf (l : List PipeEffect) : List AlertDocF :=
  l.filterMap fun e =>
    match e with
    | .notify a => some a
    | _ => none

/-- Warning-severity alerts written within an effect trace. -/
def warningsOf (l : List PipeEffect) : List AlertDocF :=
  (alertsOf l).filter fun a => a.level == "warning"

/-- Critical-severity alerts written within an effect trace. -/
def criticalsOf (l : List PipeEffect) : List AlertDocF :=
  (alertsOf l).filter fun a => a.level == "critical"

/-! ## Notification dispatcher (app/services/notification.py lines 121-174)

`notify_alert` resolves the responsible-party configuration of the
silo and
attempts, in source order: Telegram (line 132-134, NOT wrapped in
try/except), email (137-142, try/except), SMS (145-150, try/except),
one web-push delivery per matching subscription (153-167, try/except
per subscription, with deletion of the subscription on any delivery
exception), and a websocket broadcast (169-172, try/except).

Outcomes of the external calls are an environment; subscriptions are
identified by their `_id`, modelled as naturals. -/

/-- Outcome of one web-push delivery attempt: success, a permanent
"endpoint gone" provider error (410/404), or a transient error.  Both
error outcomes surface as exceptions from `webpush` (pywebpush raises
`WebPushException` for either). -/
inductive PushOutcome where
  | ok
  | gone
  | transient
  deriving DecidableEq, Repr

/-- Outcomes of all external calls made during one dispatch. `true`
for the boolean channels means the call returned without raising. -/
structure NotifyEnv where
  telegramOk : Bool
  emailOk : Bool
  smsOk : Bool
  pushOutcome : Nat → PushOutcome
  deleteOk : Nat → Bool
  broadcastOk : Bool

/-- Responsible-party configuration of the silo
(`silo.get("responsible", {})`, notification.py lines 132, 137, 145). -/
structure SiloCfg where
  telegram_chat_id : Option String
  email : Option String
  phone : Option String
  deriving DecidableEq, Repr

/-- One attempted external action of a dispatch, with its outcome. -/
inductive NAction where
  | telegramAttempt (ok : Bool)
  | emailAttempt (ok : Bool)
  | smsAttempt (ok : Bool)
  | pushAttempt (i : Nat) (outcome : PushOutcome)
  | deleteAttempt (i : Nat) (ok : Bool)
  | broadcastAttempt (ok : Bool)
  deriving DecidableEq, Repr

/-- Result of one dispatch: the ordered trace of attempted actions,
the subscriptions remaining in `db.push_subscriptions`, and whether an
uncaught exception propagated to the caller. -/
structure NotifyResult where
  trace : List NAction
  subs : List Nat
  raised : Bool
  deriving DecidableEq, Repr

/-- The web-push loop (notification.py lines 154-167): every matching
subscription gets one delivery attempt; a raising attempt is caught,
a deletion of that subscription is attempted (its own failure passed
over, line 166-167), and the loop continues.  Returns the action trace
and the surviving subscriptions. -/
def pushLoop (env : NotifyEnv) : List Nat → List NAction × List Nat
  | [] => ([], [])
  | i :: rest =>
    let r := pushLoop env rest
    match env.pushOutcome i with
    | .ok => (.pushAttempt i .ok :: r.1, i :: r.2)
    | o =>
      (.pushAttempt i o :: .deleteAttempt i (env.deleteOk i) :: r.1,
       if env.deleteOk i then r.2 else i :: r.2)

/-- The dispatch tail after the Telegram attempt (notification.py
lines 136-174): email, SMS, push fan-out, broadcast — each isolated
by its own try/except, so their outcomes never alter control flow. -/
def notifyAfterTelegram (env : NotifyEnv) (email_to phone : Option String)
    (subs : List Nat) (t0 : List NAction) : NotifyResult :=
  let t1 := t0 ++ (if email_to.isSome then [NAction.emailAttempt env.emailOk]
                   else [])
  let t2 := t1 ++ (if phone.isSome then [NAction.smsAttempt env.smsOk]
                   else [])
  let p := pushLoop env subs
  { trace := t2 ++ p.1 ++ [NAction.broadcastAttempt env.broadcastOk],
    subs := p.2,
    raised := false }

/-- Embedding of `notify_alert` (notification.py lines 121-174).  The
argument `silo` is the result of the silo lookup (`none` = not found);
`subs` the matching push subscriptions.  The Telegram attempt at lines 133-134 is not
wrapped in try/except: if it raises, the exception propagates to the
caller and no further channel is attempted. -/
def notify_alert (env : NotifyEnv) (silo : Option SiloCfg)
    (subs : List Nat) : NotifyResult :=
  let chat_id := silo.bind SiloCfg.telegram_chat_id
  let email_to := silo.bind SiloCfg.email
  let phone := silo.bind SiloCfg.phone
  match chat_id with
  | some _ =>
    if env.telegramOk then
      notifyAfterTelegram env email_to phone subs [.telegramAttempt true]
    else
      { trace := [.telegramAttempt false], subs := subs, raised := true }
  | none => notifyAfterTelegram env email_to phone subs []

/-! ## Live connection registry (app/services/ws.py lines 22-33) -/



/-- Embedding of `ConnectionManager.broadcast`: iterate a copy
(`list(self.active_connections)`) of the active set, attempting the
send to every listener; collect the listeners whose send raised and
remove each of them from the active list afterwards (first occurrence,
guarded by a membership test).  Returns (attempted listeners in order,
new active list). -/
def broadcast {α : Type} [DecidableEq α] (sendOk : α → Bool)
    (active : List α) : List α × List α :=
  let snapshot := active
  let to_remove := snapshot.filter fun ws => !sendOk ws
  let newActive := to_remove.foldl
    (fun acc ws => if ws ∈ acc then acc.erase ws else acc) active
  (snapshot, newActive)

/-! ## Concrete instances used by counterexamples and witnesses -/

/-- Prior stored reading; identical to `c4doc` on the five spec
comparison fields, differing only in `mq2_raw`. -/
def c4last : ReadingDoc := ⟨"s1", 0, 20, 50, some 400, some 3, some 0, some 5⟩

/-- New reading 60 seconds later, equal to `c4last` except `mq2_raw`. -/
def c4doc : ReadingDoc := ⟨"s1", 60, 20, 50, some 400, some 4, some 0, some 5⟩

/-- New reading fully identical to `c4last`, arriving exactly 18000
seconds later (the configured minimum, not strictly exceeded). -/
def c4docB : ReadingDoc := ⟨"s1", 18000, 20, 50, some 400, some 3, some 0, some 5⟩

/-- Reading with lux 150 and no luminosity flag. -/
def w6doc : ReadingDoc := ⟨"s1", 0, 20, 50, none, none, none, some 150⟩

/-- Reading with lux 150 and luminosity flag 1. -/
def w7doc : ReadingDoc := ⟨"s1", 0, 20, 50, none, none, some 1, some 150⟩

/-- Reading with temperature 35, luminosity flag 1 and lux 150, used
against a silo whose only configured limit is max temperature 30. -/
def w10doc : ReadingDoc := ⟨"s1", 0, 35, 50, none, none, some 1, some 150⟩

/-- Dispatch environment in which only the Telegram call raises. -/
def envTgFail : NotifyEnv :=
  ⟨false, true, true, fun _ => .ok, fun _ => true, true⟩

/-- Dispatch environment in which only the email call raises. -/
def envEmailFail : NotifyEnv :=
  ⟨true, false, true, fun _ => .ok, fun _ => true, true⟩

/-- Dispatch environment in which every push delivery fails
transiently and everything else succeeds. -/
def envTransient : NotifyEnv :=
  ⟨true, true, true, fun _ => .transient, fun _ => true, true⟩

/-- Silo with chat handle, email address and phone number configured. -/
def cfgFull : SiloCfg := ⟨some "chat42", some "resp@example.com", some "+55"⟩

/-- Dispatch environment in which push delivery to subscription 1
reports the endpoint permanently gone, delivery to subscription 2
fails transiently, and everything else succeeds. -/
def envMixedPush : NotifyEnv :=
  ⟨true, true, true,
   fun i => if i = 1 then .gone else if i = 2 then .transient else .ok,
   fun _ => true, true⟩

/-! ## Theorems -/

/-- C5 counterexample: for an alert already acknowledged by user "u1"
at time 5, a second acknowledgment by user "u2" at time 9 overwrites
the recorded acknowledging user and time, so acknowledging an
already-acknowledged alert is not idempotent as claimed. -/
theorem C5_ack_overwrite_counterexample :
    (ack_alert "u2" 9 ⟨true, some "u1", some 5⟩).ack_by ≠ some "u1" ∧
    (ack_alert "u2" 9 ⟨true, some "u1", some 5⟩).ack_at ≠ some 5 ∧
    (ack_alert "u2" 9 ⟨true, some "u1", some 5⟩).acknowledged = true := by
  refine ⟨?_, ?_, rfl⟩ <;> decide

/-- C5 (amended): the acknowledge operation unconditionally sets the
acknowledgment flag to true (so the flag is monotonic and never turns
back to false), and it always overwrites the acknowledging user and
the acknowledgment time with the current caller and time — also when
the alert was already acknowledged. -/
theorem C5_ack_always_sets (user : String) (now : ℚ) (a : AlertAckState) :
    (ack_alert user now a).acknowledged = true ∧
    (ack_alert user now a).ack_by = some user ∧
    (ack_alert user now a).ack_at = some now :=
  ⟨rfl, rfl, rfl⟩

/-- C8: when no prior reading exists (`some none`) or the fetch of the
prior reading failed (`none`, the exception being caught at
thing_speak.py lines 125-126), the deduplication gate stores the new
reading, and the pipeline trace contains its insertion. -/
theorem C8_accept_without_prior (dark openThr minSec : ℚ) (th : Thresholds)
    (anomaly : Option (Bool × ℚ)) (doc : ReadingDoc) :
    dedupDecision minSec none doc = .store ∧
    dedupDecision minSec (some none) doc = .store ∧
    PipeEffect.insertReading doc ∈
      fetch_and_store_effects dark openThr minSec th none anomaly doc ∧
    PipeEffect.insertReading doc ∈
      fetch_and_store_effects dark openThr minSec th (some none) anomaly doc := by
  refine ⟨rfl, rfl, ?_, ?_⟩ <;>
    simp [fetch_and_store_effects, dedupDecision]

/-- C4 counterexample.  First input: `c4last` and `c4doc` agree on all
five fields of the claimed comparison set {temperature, humidity, gas,
luminosity flag, lux} and arrive 60 s apart (far below the 18000 s
minimum), yet the gate stores the new reading (the source also
compares the sixth stored field `mq2_raw`, which differs), where the
claim requires suppression.  Second input: `c4last` and `c4docB` are
identical on every compared field and arrive exactly 18000 s apart —
an elapsed time that does not strictly exceed the minimum — yet the
gate stores the new reading. -/
theorem C4_dedup_counterexample :
    (specComparisonIdentical c4last c4doc = true ∧
     c4doc.timestamp - c4last.timestamp < IDENTICAL_READINGS_MIN_SECONDS ∧
     dedupDecision IDENTICAL_READINGS_MIN_SECONDS (some (some c4last)) c4doc
       = .store) ∧
    (fieldsIdentical c4last c4docB = true ∧
     specComparisonIdentical c4last c4docB = true ∧
     c4docB.timestamp - c4last.timestamp = IDENTICAL_READINGS_MIN_SECONDS ∧
     dedupDecision IDENTICAL_READINGS_MIN_SECONDS (some (some c4last)) c4docB
       = .store) := by
  refine ⟨⟨by decide, ?_, ?_⟩, ⟨by decide, by decide, ?_, ?_⟩⟩
  · norm_num [c4doc, c4last, IDENTICAL_READINGS_MIN_SECONDS]
  · have hfi : fieldsIdentical c4last c4doc = false := by decide
    simp [dedupDecision, hfi]
  · norm_num [c4docB, c4last, IDENTICAL_READINGS_MIN_SECONDS]
  · have hfi : fieldsIdentical c4last c4docB = true := by decide
    norm_num [dedupDecision, hfi, c4docB, c4last,
              IDENTICAL_READINGS_MIN_SECONDS]

/-- C4 (amended): the comparison set of the gate consists of the six
stored sensor fields {temp_C, rh_pct, co2_ppm_est, mq2_raw,
luminosity_alert, lux} (a field present in one document and absent in
the other counts as a difference; numeric comparison is exact); a new
reading differing on any of the six is stored unconditionally, and a
new reading identical on all six is stored if and only if the elapsed
time is at least the configured minimum interval (default 18000 s),
i.e. it is suppressed exactly when the elapsed time is strictly below
the minimum. -/
theorem C4_dedup_gate (minSec : ℚ) (last doc : ReadingDoc) :
    dedupDecision minSec (some (some last)) doc = .store ↔
      (fieldsIdentical last doc = false ∨
       minSec ≤ doc.timestamp - last.timestamp) := by
  unfold dedupDecision
  cases h : fieldsIdentical last doc with
  | false => simp [h]
  | true =>
    by_cases hlt : doc.timestamp - last.timestamp < minSec
    · simp [h, hlt, not_le.mpr hlt]
    · simp [h, hlt, not_lt.1 hlt]

/-! ### Live broadcast (C9) -/

lemma removal_step_eq_erase {α : Type} [DecidableEq α] (acc : List α)
    (w : α) : (if w ∈ acc then acc.erase w else acc) = acc.erase w := by
  by_cases hw : w ∈ acc
  · simp [hw]
  · simp [hw, List.erase_of_not_mem hw]

lemma foldl_erase_cons {α : Type} [DecidableEq α] (x : α) :
    ∀ (m l : List α), (∀ y ∈ m, y ≠ x) →
      List.foldl (fun acc w => acc.erase w) (x :: l) m =
        x :: List.foldl (fun acc w => acc.erase w) l m := by
  intro m
  induction m with
  | nil => intro l _; rfl
  | cons y m ih =>
    intro l hm
    have hyx : y ≠ x := hm y (List.mem_cons_self y m)
    have hxy : ¬((x == y) = true) := by
      simp only [beq_iff_eq]
      exact fun h => hyx h.symm
    simp only [List.foldl_cons, List.erase_cons_tail hxy]
    exact ih (l.erase y) fun z hz => hm z (List.mem_cons_of_mem y hz)

lemma foldl_erase_filter {α : Type} [DecidableEq α] (p : α → Bool) :
    ∀ l : List α,
      List.foldl (fun acc w => acc.erase w) l (l.filter fun a => !p a) =
        l.filter p := by
  intro l
  induction l with
  | nil => rfl
  | cons x xs ih =>
    cases hp : p x with
    | true =>
      have hfalse : (!p x) = false := by simp [hp]
      rw [List.filter_cons_of_neg (by simp [hfalse]),
          foldl_erase_cons x _ xs ?_, ih,
          List.filter_cons_of_pos (by simp [hp])]
      intro y hy
      have : p y = false := by
        have := List.of_mem_filter hy
        simpa using this
      intro hxy
      rw [hxy] at this
      rw [hp] at this
      exact Bool.noConfusion this
    | false =>
      rw [List.filter_cons_of_pos (by simp [hp])]
      simp only [List.foldl_cons, List.erase_cons_head]
      rw [ih, List.filter_cons_of_neg (by simp [hp])]

/-- C9: a broadcast attempts the send to every listener of the
snapshot of the active set taken at entry (so one failing listener
does not abort delivery to the rest), and the new active set is
exactly the snapshot restricted to the listeners whose send succeeded
— every listener whose send failed has been removed, every listener
whose send succeeded is kept. -/
theorem C9_broadcast_snapshot_and_removal {α : Type} [DecidableEq α]
    (sendOk : α → Bool) (active : List α) :
    (broadcast sendOk active).1 = active ∧
    (broadcast sendOk active).2 = active.filter sendOk := by
  constructor
  · rfl
  · show List.foldl (fun acc w => if w ∈ acc then acc.erase w else acc)
      active (active.filter fun a => !sendOk a) = active.filter sendOk
    have hfun : (fun (acc : List α) w => if w ∈ acc then acc.erase w else acc)
        = fun acc w => acc.erase w := by
      funext acc w
      exact removal_step_eq_erase acc w
    rw [hfun]
    exact foldl_erase_filter sendOk active

/-! ### Luminosity rules (C6, C7) -/

lemma eventsOf_append (l1 l2 : List PipeEffect) :
    eventsOf (l1 ++ l2) = eventsOf l1 ++ eventsOf l2 := by
  simp [eventsOf]

lemma alertsOf_append (l1 l2 : List PipeEffect) :
    alertsOf (l1 ++ l2) = alertsOf l1 ++ alertsOf l2 := by
  simp [alertsOf]

lemma notifiedOf_append (l1 l2 : List PipeEffect) :
    notifiedOf (l1 ++ l2) = notifiedOf l1 ++ notifiedOf l2 := by
  simp [notifiedOf]

lemma warningsOf_append (l1 l2 : List PipeEffect) :
    warningsOf (l1 ++ l2) = warningsOf l1 ++ warningsOf l2 := by
  simp [warningsOf, alertsOf_append]

lemma criticalsOf_append (l1 l2 : List PipeEffect) :
    criticalsOf (l1 ++ l2) = criticalsOf l1 ++ criticalsOf l2 := by
  simp [criticalsOf, alertsOf_append]

lemma crit_beq_warn : (("critical" : String) == "warning") = false := by
  decide

lemma warn_beq_warn : (("warning" : String) == "warning") = true := by
  decide

lemma crit_beq_crit : (("critical" : String) == "critical") = true := by
  decide

lemma warn_beq_crit : (("warning" : String) == "critical") = false := by
  decide

/-- C6: on an accepted reading with a prior stored reading, if the
prior lux is at most the dark threshold and the current lux is at
least the open threshold, exactly one `silo_opened` event carrying the
prior and current lux and exactly one warning alert are written; and
if the prior lux is strictly above the dark threshold, no transition
event is written. -/
theorem C6_luminosity_transition (dark openThr p : ℚ) (doc : ReadingDoc) :
    (∀ l : ℚ, doc.lux = some l → p ≤ dark → openThr ≤ l →
      eventsOf (luminosityEffects dark openThr (some p) doc) =
        [⟨doc.silo_id, "silo_opened", p, l⟩] ∧
      warningsOf (luminosityEffects dark openThr (some p) doc) =
        [⟨doc.silo_id, "warning", lumWarnMsg, .lumTransition p l⟩]) ∧
    (dark < p →
      eventsOf (luminosityEffects dark openThr (some p) doc) = []) := by
  constructor
  · intro l hl hpd hol
    cases hfa : doc.luminosity_alert == some 1 with
    | true =>
      simp [luminosityEffects, hl, hpd, hol, hfa, eventsOf, warningsOf,
            alertsOf, crit_beq_warn, warn_beq_warn]
    | false =>
      simp [luminosityEffects, hl, hpd, hol, hfa, eventsOf, warningsOf,
            alertsOf, warn_beq_warn]
  · intro hdp
    have hnp : ¬(p ≤ dark) := not_le.mpr hdp
    cases hl : doc.lux with
    | none =>
      cases hfa : doc.luminosity_alert == some 1 <;>
        simp [luminosityEffects, hl, hfa, eventsOf]
    | some l =>
      cases hfa : doc.luminosity_alert == some 1 <;>
        simp [luminosityEffects, hl, hnp, hfa, eventsOf]

/-- C6 witness: with the default thresholds (dark 10, open 100), prior
lux 5 and current lux 150 produce exactly the silo-opened event and
the single warning alert, while prior lux 50 produces no event. -/
theorem C6_luminosity_transition_witness :
    (eventsOf (luminosityEffects 10 100 (some 5) w6doc) =
       [⟨"s1", "silo_opened", 5, 150⟩] ∧
     warningsOf (luminosityEffects 10 100 (some 5) w6doc) =
       [⟨"s1", "warning", lumWarnMsg, .lumTransition 5 150⟩]) ∧
    eventsOf (luminosityEffects 10 100 (some 50) w6doc) = [] :=
  ⟨(C6_luminosity_transition 10 100 5 w6doc).1 150 rfl (by norm_num)
      (by norm_num),
   (C6_luminosity_transition 10 100 50 w6doc).2 (by norm_num)⟩

/-- C7: whenever the luminosity alert flag of the current reading
equals 1, exactly one critical alert is written, whatever the prior or
current lux; and when the transition rule fires in the same cycle, the
cycle writes exactly two alerts, one warning and one critical. -/
theorem C7_luminosity_flag (dark openThr : ℚ) (prev : Option ℚ)
    (doc : ReadingDoc) :
    (doc.luminosity_alert = some 1 →
      criticalsOf (luminosityEffects dark openThr prev doc) =
        [⟨doc.silo_id, "critical", lumCritMsg, .lumFlag doc.lux (some 1)⟩]) ∧
    (∀ p l, prev = some p → doc.lux = some l → p ≤ dark → openThr ≤ l →
      doc.luminosity_alert = some 1 →
      warningsOf (luminosityEffects dark openThr prev doc) =
        [⟨doc.silo_id, "warning", lumWarnMsg, .lumTransition p l⟩] ∧
      criticalsOf (luminosityEffects dark openThr prev doc) =
        [⟨doc.silo_id, "critical", lumCritMsg, .lumFlag doc.lux (some 1)⟩] ∧
      (alertsOf (luminosityEffects dark openThr prev doc)).length = 2) := by
  constructor
  · intro hfa
    rcases prev with _ | p
    · cases hl : doc.lux <;>
        simp [luminosityEffects, hfa, hl, criticalsOf, alertsOf,
              crit_beq_crit]
    · cases hl : doc.lux with
      | none =>
        simp [luminosityEffects, hfa, hl, criticalsOf, alertsOf,
              crit_beq_crit]
      | some l =>
        by_cases hc : p ≤ dark ∧ openThr ≤ l
        · simp [luminosityEffects, hfa, hl, hc, criticalsOf, alertsOf,
                crit_beq_crit, warn_beq_crit]
        · simp [luminosityEffects, hfa, hl, hc, criticalsOf, alertsOf,
                crit_beq_crit]
  · intro p l hp hl hpd hol hfa
    subst hp
    refine ⟨?_, ?_, ?_⟩ <;>
      simp [luminosityEffects, hfa, hl, hpd, hol, warningsOf, criticalsOf,
            alertsOf, crit_beq_warn, warn_beq_warn, crit_beq_crit,
            warn_beq_crit]

/-- C7 witness: flag 1 with prior lux 5 and current lux 150 under the
default thresholds yields exactly one critical alert, and together
with the simultaneous transition exactly two alerts in the cycle. -/
theorem C7_luminosity_flag_witness :
    criticalsOf (luminosityEffects 10 100 (some 5) w7doc) =
      [⟨"s1", "critical", lumCritMsg, .lumFlag (some 150) (some 1)⟩] ∧
    warningsOf (luminosityEffects 10 100 (some 5) w7doc) =
      [⟨"s1", "warning", lumWarnMsg, .lumTransition 5 150⟩] ∧
    (alertsOf (luminosityEffects 10 100 (some 5) w7doc)).length = 2 := by
  have h := (C7_luminosity_flag 10 100 (some 5) w7doc).2 5 150 rfl rfl
    (by norm_num) (by norm_num) rfl
  exact ⟨h.2.1, h.1, h.2.2⟩

/-! ### Threshold rule engine (C1) -/

lemma filter_checkMetric_other (name msg q : String) (value limit : Option ℚ)
    (hq : (name == q) = false) :
    (checkMetric name msg value limit).filter (fun a => a.metric == q)
      = [] := by
  unfold checkMetric
  rcases limit with _ | m
  · rfl
  · rcases value with _ | v
    · rfl
    · by_cases hlt : m < v
      · simp [hlt, hq]
      · simp [hlt]

lemma filter_checkMetric_self (name msg : String) (value limit : Option ℚ) :
    (checkMetric name msg value limit).filter (fun a => a.metric == name)
      = checkMetric name msg value limit := by
  unfold checkMetric
  rcases limit with _ | m
  · rfl
  · rcases value with _ | v
    · rfl
    · by_cases hlt : m < v
      · simp [hlt]
      · simp [hlt]

lemma checkMetric_level (name msg : String) (value limit : Option ℚ) :
    ∀ a ∈ checkMetric name msg value limit, a.level = "critical" := by
  unfold checkMetric
  rcases limit with _ | m
  · intro a ha; cases ha
  · rcases value with _ | v
    · intro a ha; cases ha
    · by_cases hlt : m < v
      · simp [hlt]
      · simp [hlt]

lemma checkMetric_breach (name msg : String) (v m : ℚ) (hlt : m < v) :
    checkMetric name msg (some v) (some m) =
      [⟨"critical", name, msg, .metricVal v m⟩] := by
  simp [checkMetric, hlt]

lemma checkMetric_skip (name msg : String) (value limit : Option ℚ)
    (h : limit = none ∨ value = none ∨
         ∀ m v, limit = some m → value = some v → v ≤ m) :
    checkMetric name msg value limit = [] := by
  rcases limit with _ | m
  · rfl
  · rcases value with _ | v
    · rfl
    · rcases h with h | h | h
      · cases h
      · cases h
      · have := h m v rfl rfl
        simp [checkMetric, not_lt.mpr this]

/-- C1: per metric pair of {temperature vs max_temp, humidity vs
max_humidity, gas vs max_gas}, a present limit together with a present
reading value strictly above it yields exactly one alert naming that
metric; a missing limit, a missing value, or a value not strictly
above the limit yields none for that check; the three checks are
independent, so several breaches yield one alert each in the same
cycle, and every produced alert has severity critical.  (The engine,
`apply_threshold_rules` of app/utils.py, is modelled from the spec —
the module is absent from the source tree.) -/
theorem C1_threshold_rules (th : Thresholds) (t h g : Option ℚ) :
    ((apply_threshold_rules th t h g).filter
        (fun a => a.metric == "temperature") =
      checkMetric "temperature" tempMsg t th.max_temp) ∧
    ((apply_threshold_rules th t h g).filter
        (fun a => a.metric == "humidity") =
      checkMetric "humidity" humMsg h th.max_humidity) ∧
    ((apply_threshold_rules th t h g).filter
        (fun a => a.metric == "gas") =
      checkMetric "gas" gasMsg g th.max_gas) ∧
    (∀ m v, th.max_temp = some m → t = some v → m < v →
      checkMetric "temperature" tempMsg t th.max_temp =
        [⟨"critical", "temperature", tempMsg, .metricVal v m⟩]) ∧
    (∀ m v, th.max_humidity = some m → h = some v → m < v →
      checkMetric "humidity" humMsg h th.max_humidity =
        [⟨"critical", "humidity", humMsg, .metricVal v m⟩]) ∧
    (∀ m v, th.max_gas = some m → g = some v → m < v →
      checkMetric "gas" gasMsg g th.max_gas =
        [⟨"critical", "gas", gasMsg, .metricVal v m⟩]) ∧
    ((th.max_temp = none ∨ t = none ∨
        ∀ m v, th.max_temp = some m → t = some v → v ≤ m) →
      checkMetric "temperature" tempMsg t th.max_temp = []) ∧
    ((th.max_humidity = none ∨ h = none ∨
        ∀ m v, th.max_humidity = some m → h = some v → v ≤ m) →
      checkMetric "humidity" humMsg h th.max_humidity = []) ∧
    ((th.max_gas = none ∨ g = none ∨
        ∀ m v, th.max_gas = some m → g = some v → v ≤ m) →
      checkMetric "gas" gasMsg g th.max_gas = []) ∧
    (∀ a ∈ apply_threshold_rules th t h g, a.level = "critical") := by
  refine ⟨?_, ?_, ?_, ?_, ?_, ?_, ?_, ?_, ?_, ?_⟩
  · unfold apply_threshold_rules
    rw [List.filter_append, List.filter_append,
        filter_checkMetric_self "temperature" tempMsg t th.max_temp,
        filter_checkMetric_other "humidity" humMsg "temperature" h
          th.max_humidity (by decide),
        filter_checkMetric_other "gas" gasMsg "temperature" g
          th.max_gas (by decide)]
    simp
  · unfold apply_threshold_rules
    rw [List.filter_append, List.filter_append,
        filter_checkMetric_other "temperature" tempMsg "humidity" t
          th.max_temp (by decide),
        filter_checkMetric_self "humidity" humMsg h th.max_humidity,
        filter_checkMetric_other "gas" gasMsg "humidity" g
          th.max_gas (by decide)]
    simp
  · unfold apply_threshold_rules
    rw [List.filter_append, List.filter_append,
        filter_checkMetric_other "temperature" tempMsg "gas" t
          th.max_temp (by decide),
        filter_checkMetric_other "humidity" humMsg "gas" h
          th.max_humidity (by decide),
        filter_checkMetric_self "gas" gasMsg g th.max_gas]
    simp
  · intro m v hm hv hlt
    rw [hm, hv]
    exact checkMetric_breach _ _ v m hlt
  · intro m v hm hv hlt
    rw [hm, hv]
    exact checkMetric_breach _ _ v m hlt
  · intro m v hm hv hlt
    rw [hm, hv]
    exact checkMetric_breach _ _ v m hlt
  · exact checkMetric_skip _ _ _ _
  · exact checkMetric_skip _ _ _ _
  · exact checkMetric_skip _ _ _ _
  · intro a ha
    unfold apply_threshold_rules at ha
    rcases List.mem_append.1 ha with ha | ha
    · rcases List.mem_append.1 ha with ha | ha
      · exact checkMetric_level _ _ _ _ a ha
      · exact checkMetric_level _ _ _ _ a ha
    · exact checkMetric_level _ _ _ _ a ha

/-- C1 witness: a silo with max_temp 30 and max_gas 100 and a reading
with temperature 35, absent humidity and gas 150 breaches two limits
and gets exactly one critical temperature alert and one critical gas
alert, and the absent humidity limit produces none. -/
theorem C1_threshold_rules_witness :
    ((apply_threshold_rules ⟨some 30, none, some 100⟩ (some 35) none
        (some 150)).filter (fun a => a.metric == "temperature") =
      [⟨"critical", "temperature", tempMsg, .metricVal 35 30⟩]) ∧
    ((apply_threshold_rules ⟨some 30, none, some 100⟩ (some 35) none
        (some 150)).filter (fun a => a.metric == "gas") =
      [⟨"critical", "gas", gasMsg, .metricVal 150 100⟩]) ∧
    ((apply_threshold_rules ⟨some 30, none, some 100⟩ (some 35) none
        (some 150)).filter (fun a => a.metric == "humidity") = []) := by
  have h := C1_threshold_rules ⟨some 30, none, some 100⟩ (some 35) none
    (some 150)
  refine ⟨?_, ?_, ?_⟩
  · rw [h.1]
    exact h.2.2.2.1 30 35 rfl rfl (by norm_num)
  · rw [h.2.2.1]
    exact h.2.2.2.2.2.1 100 150 rfl rfl (by norm_num)
  · rw [h.2.1]
    exact h.2.2.2.2.2.2.2.1 (Or.inr (Or.inl rfl))

/-! ### Notification dispatch (C2, C3) -/

lemma pushLoop_subs_eq (env : NotifyEnv) :
    ∀ subs : List Nat, (pushLoop env subs).2 =
      subs.filter fun i => env.pushOutcome i == .ok || !env.deleteOk i := by
  intro subs
  induction subs with
  | nil => rfl
  | cons j rest ih =>
    cases ho : env.pushOutcome j with
    | ok => simp [pushLoop, ho, ih, List.filter_cons]
    | gone =>
      cases hd : env.deleteOk j <;>
        simp [pushLoop, ho, hd, ih, List.filter_cons]
    | transient =>
      cases hd : env.deleteOk j <;>
        simp [pushLoop, ho, hd, ih, List.filter_cons]

lemma pushLoop_attempts (env : NotifyEnv) :
    ∀ subs : List Nat, ∀ i ∈ subs,
      NAction.pushAttempt i (env.pushOutcome i) ∈ (pushLoop env subs).1 := by
  intro subs
  induction subs with
  | nil => intro i hi; cases hi
  | cons j rest ih =>
    intro i hi
    rcases List.mem_cons.1 hi with rfl | hi
    · cases ho : env.pushOutcome i <;> simp [pushLoop, ho]
    · cases ho : env.pushOutcome j <;>
        simp [pushLoop, ho, ih i hi]

lemma pushLoop_deletes (env : NotifyEnv) :
    ∀ subs : List Nat, ∀ i ∈ subs, env.pushOutcome i ≠ .ok →
      NAction.deleteAttempt i (env.deleteOk i) ∈ (pushLoop env subs).1 := by
  intro subs
  induction subs with
  | nil => intro i hi; cases hi
  | cons j rest ih =>
    intro i hi hne
    rcases List.mem_cons.1 hi with rfl | hi
    · cases ho : env.pushOutcome i with
      | ok => exact absurd ho hne
      | gone => simp [pushLoop, ho]
      | transient => simp [pushLoop, ho]
    · cases ho : env.pushOutcome j <;>
        simp [pushLoop, ho, ih i hi hne]

lemma notify_alert_result (env : NotifyEnv) (silo : Option SiloCfg)
    (subs : List Nat) (htg : env.telegramOk = true) :
    notify_alert env silo subs =
      notifyAfterTelegram env (silo.bind SiloCfg.email)
        (silo.bind SiloCfg.phone) subs
        (if (silo.bind SiloCfg.telegram_chat_id).isSome then
          [NAction.telegramAttempt true] else []) := by
  rcases hso : silo.bind SiloCfg.telegram_chat_id with _ | c <;>
    simp [notify_alert, hso, htg]

/-- C2 counterexample: with a silo configured with a chat handle, an
email address and a phone number, and a dispatch in which only the
Telegram call raises, the dispatch propagates the exception to the
caller (`raised = true`) and its trace consists of the failed
Telegram attempt alone — the email, SMS, push and broadcast attempts
for that alert are never executed (notification.py lines 133-134 lack
the try/except that the other channels have). -/
theorem C2_isolation_counterexample :
    (notify_alert envTgFail (some cfgFull) [0]).raised = true ∧
    (notify_alert envTgFail (some cfgFull) [0]).trace =
      [NAction.telegramAttempt false] :=
  ⟨rfl, rfl⟩

/-- C2 (amended): isolation holds for the email, SMS, individual push
and broadcast attempts — once the chat-bot (Telegram) attempt has
succeeded, each later attempt is executed whatever the outcomes of the
others, every push subscription is attempted, and the dispatch
completes without raising; but the chat-bot attempt itself is not
isolated: if it raises, the exception propagates to the caller and the
remaining channel attempts are skipped. -/
theorem C2_channel_isolation (env : NotifyEnv) (cfg : SiloCfg)
    (subs : List Nat) (c e ph : String)
    (hc : cfg.telegram_chat_id = some c) (he : cfg.email = some e)
    (hp : cfg.phone = some ph) :
    (env.telegramOk = true →
      notify_alert env (some cfg) subs =
        { trace := NAction.telegramAttempt true ::
            NAction.emailAttempt env.emailOk ::
            NAction.smsAttempt env.smsOk ::
            ((pushLoop env subs).1 ++
              [NAction.broadcastAttempt env.broadcastOk]),
          subs := (pushLoop env subs).2,
          raised := false } ∧
      ∀ i ∈ subs, NAction.pushAttempt i (env.pushOutcome i) ∈
        (notify_alert env (some cfg) subs).trace) ∧
    (env.telegramOk = false →
      notify_alert env (some cfg) subs =
        { trace := [NAction.telegramAttempt false], subs := subs,
          raised := true }) := by
  constructor
  · intro htg
    have hres : notify_alert env (some cfg) subs =
        { trace := NAction.telegramAttempt true ::
            NAction.emailAttempt env.emailOk ::
            NAction.smsAttempt env.smsOk ::
            ((pushLoop env subs).1 ++
              [NAction.broadcastAttempt env.broadcastOk]),
          subs := (pushLoop env subs).2,
          raised := false } := by
      rw [notify_alert_result env (some cfg) subs htg]
      simp [notifyAfterTelegram, hc, he, hp]
    refine ⟨hres, ?_⟩
    intro i hi
    rw [hres]
    simp only [List.mem_cons, List.mem_append]
    exact Or.inr (Or.inr (Or.inr (Or.inl (pushLoop_attempts env subs i hi))))
  · intro htg
    simp [notify_alert, hc, htg]

/-- C2 witness: silo fully configured, email raising, everything else
succeeding, one push subscription — the failed email attempt is
followed by the SMS, push and broadcast attempts and the dispatch
completes without raising. -/
theorem C2_channel_isolation_witness :
    notify_alert envEmailFail (some cfgFull) [0] =
      { trace := [NAction.telegramAttempt true, NAction.emailAttempt false,
                  NAction.smsAttempt true, NAction.pushAttempt 0 .ok,
                  NAction.broadcastAttempt true],
        subs := [0], raised := false } := by
  have h := ((C2_channel_isolation envEmailFail cfgFull [0]
    "chat42" "resp@example.com" "+55" rfl rfl rfl).1 rfl).1
  simpa using h

/-- C3 counterexample: a push delivery that fails transiently (not a
permanent endpoint-gone outcome) still causes the subscription to be
deleted: the dispatch removes subscription 0 from the store
(notification.py lines 162-167 delete on any exception), where the
claim requires it to be left intact. -/
theorem C3_push_cleanup_counterexample :
    envTransient.pushOutcome 0 = .transient ∧
    (notify_alert envTransient none []).raised = false ∧
    (notify_alert envTransient (some cfgFull) [0]).subs = [] ∧
    (notify_alert envTransient (some cfgFull) [0]).trace =
      [NAction.telegramAttempt true, NAction.emailAttempt true,
       NAction.smsAttempt true, NAction.pushAttempt 0 .transient,
       NAction.deleteAttempt 0 true, NAction.broadcastAttempt true] :=
  ⟨rfl, rfl, rfl, rfl⟩

/-- C3 (amended): during a dispatch that reaches the push fan-out, a
push subscription is deleted if and only if its delivery attempt
raised any exception — permanent endpoint-gone and transient failures
alike — and the deletion operation itself succeeded; a subscription
whose delivery succeeded, or whose deletion failed, survives, and
every failing delivery is followed by a deletion attempt. -/
theorem C3_push_cleanup (env : NotifyEnv) (silo : Option SiloCfg)
    (subs : List Nat) (htg : env.telegramOk = true) :
    (notify_alert env silo subs).subs =
      subs.filter (fun i => env.pushOutcome i == .ok || !env.deleteOk i) ∧
    (∀ i ∈ subs, env.pushOutcome i ≠ .ok →
      NAction.deleteAttempt i (env.deleteOk i) ∈
        (notify_alert env silo subs).trace) ∧
    (∀ i ∈ subs, (i ∉ (notify_alert env silo subs).subs ↔
      env.pushOutcome i ≠ .ok ∧ env.deleteOk i = true)) := by
  rw [notify_alert_result env silo subs htg]
  refine ⟨?_, ?_, ?_⟩
  · simp [notifyAfterTelegram, pushLoop_subs_eq]
  · intro i hi hne
    simp only [notifyAfterTelegram, List.mem_append]
    exact Or.inl (Or.inr (pushLoop_deletes env subs i hi hne))
  · intro i hi
    simp only [notifyAfterTelegram, pushLoop_subs_eq, List.mem_filter, hi,
               true_and, Bool.or_eq_true, beq_iff_eq, Bool.not_eq_eq_eq_not,
               Bool.not_true]
    constructor
    · intro hnot
      push_neg at hnot
      rcases h1 : env.pushOutcome i with _ | _ | _ <;>
        rcases h2 : env.deleteOk i with _ | _ <;>
          simp [h1, h2] at hnot ⊢
    · rintro ⟨hne, hd⟩ hcon
      rcases hcon with hcon | hcon
      · exact hne hcon
      · rw [hd] at hcon
        exact Bool.noConfusion hcon

/-- C3 witness: telegram succeeding, three subscriptions of which
number 1 fails permanently (endpoint gone) and number 2 fails
transiently with a succeeding deletion call: both failing
subscriptions are deleted and both deletions were attempted, while
subscription 0 (successful delivery) survives. -/
theorem C3_push_cleanup_witness :
    (notify_alert envMixedPush none [0, 1, 2]).subs = [0] ∧
    NAction.deleteAttempt 1 true ∈
      (notify_alert envMixedPush none [0, 1, 2]).trace ∧
    NAction.deleteAttempt 2 true ∈
      (notify_alert envMixedPush none [0, 1, 2]).trace ∧
    (1 ∉ (notify_alert envMixedPush none [0, 1, 2]).subs ↔
      envMixedPush.pushOutcome 1 ≠ .ok ∧ envMixedPush.deleteOk 1 = true) := by
  have h := C3_push_cleanup envMixedPush none [0, 1, 2] rfl
  refine ⟨by simpa using h.1, ?_, ?_, h.2.2 1 (by simp)⟩
  · exact h.2.1 1 (by simp) (by decide)
  · exact h.2.1 2 (by simp) (by decide)

/-! ### Dispatch scope of the pipeline (C10) -/

lemma notifiedOf_luminosity (dark openThr : ℚ) (prev : Option ℚ)
    (doc : ReadingDoc) :
    notifiedOf (luminosityEffects dark openThr prev doc) = [] := by
  unfold luminosityEffects
  rcases prev with _ | p
  · cases hfa : doc.luminosity_alert == some 1 <;> simp [hfa, notifiedOf]
  · cases hl : doc.lux with
    | none =>
      cases hfa : doc.luminosity_alert == some 1 <;> simp [hfa, notifiedOf]
    | some l =>
      by_cases hcond : p ≤ dark ∧ openThr ≤ l <;>
        cases hfa : doc.luminosity_alert == some 1 <;>
          simp [hfa, hcond, notifiedOf]

lemma notify_not_mem_luminosity (dark openThr : ℚ) (prev : Option ℚ)
    (doc : ReadingDoc) (a : AlertDocF) :
    PipeEffect.notify a ∉ luminosityEffects dark openThr prev doc := by
  unfold luminosityEffects
  rcases prev with _ | p
  · cases hfa : doc.luminosity_alert == some 1 <;> simp [hfa]
  · cases hl : doc.lux with
    | none =>
      cases hfa : doc.luminosity_alert == some 1 <;> simp [hfa]
    | some l =>
      by_cases hcond : p ≤ dark ∧ openThr ≤ l <;>
        cases hfa : doc.luminosity_alert == some 1 <;>
          simp [hfa, hcond]

lemma notifiedOf_post (sid : String) (cands : List CandidateAlert) :
    notifiedOf (postProcessEffects sid cands) =
      cands.map (mkAlertDoc sid) := by
  induction cands with
  | nil => rfl
  | cons c rest ih => simp [postProcessEffects, notifiedOf] at ih ⊢; exact ih

lemma notify_mem_post (sid : String) (cands : List CandidateAlert)
    (a : AlertDocF) :
    PipeEffect.notify a ∈ postProcessEffects sid cands →
      a ∈ cands.map (mkAlertDoc sid) := by
  induction cands with
  | nil => intro h; cases h
  | cons c rest ih =>
    intro h
    simp only [postProcessEffects, List.flatMap_cons, List.mem_append,
               List.mem_cons] at h
    rcases h with (h | h | h) | h
    · cases h
    · simp [List.mem_map]
      exact Or.inl (PipeEffect.notify.inj h)
    · cases h
    · simp only [List.mem_map, List.mem_cons]
      have := ih h
      simp only [List.mem_map] at this
      obtain ⟨x, hx, hxa⟩ := this
      exact ⟨x, Or.inr hx, hxa⟩

lemma insertAlert_lum_value (dark openThr : ℚ) (prev : Option ℚ)
    (doc : ReadingDoc) (a : AlertDocF) :
    PipeEffect.insertAlert a ∈ luminosityEffects dark openThr prev doc →
      (∃ p l, a.value = .lumTransition p l) ∨
      a.value = .lumFlag doc.lux doc.luminosity_alert := by
  unfold luminosityEffects
  rcases prev with _ | p
  · cases hfa : doc.luminosity_alert == some 1
    · intro h
      simp [hfa] at h
    · intro h
      simp [hfa] at h
      right
      rw [h]
  · cases hl : doc.lux with
    | none =>
      cases hfa : doc.luminosity_alert == some 1
      · intro h
        simp [hfa] at h
      · intro h
        simp [hfa] at h
        right
        rw [h]
    | some l =>
      by_cases hcond : p ≤ dark ∧ openThr ≤ l
      · cases hfa : doc.luminosity_alert == some 1
        · intro h
          simp [hfa, hcond] at h
          left
          exact ⟨p, l, by rw [h]⟩
        · intro h
          simp [hfa, hcond] at h
          rcases h with h | h
          · left
            exact ⟨p, l, by rw [h]⟩
          · right
            rw [h]
      · cases hfa : doc.luminosity_alert == some 1
        · intro h
          simp [hfa, hcond] at h
        · intro h
          simp [hfa, hcond] at h
          right
          rw [h]

lemma checkMetric_value (name msg : String) (value limit : Option ℚ)
    (a : CandidateAlert) :
    a ∈ checkMetric name msg value limit →
      ∃ v m, a.value = .metricVal v m := by
  unfold checkMetric
  rcases limit with _ | m
  · intro h; cases h
  · rcases value with _ | v
    · intro h; cases h
    · by_cases hlt : m < v <;> simp [hlt]
      intro h
      exact ⟨v, m, by rw [h]⟩

lemma candidate_value (th : Thresholds) (anomaly : Option (Bool × ℚ))
    (doc : ReadingDoc) (a : CandidateAlert) :
    a ∈ candidateAlerts th anomaly doc →
      (∃ v m, a.value = .metricVal v m) ∨ ∃ s, a.value = .score s := by
  unfold candidateAlerts apply_threshold_rules
  have hbase : ∀ b ∈
      checkMetric "temperature" tempMsg (some doc.temp_C) th.max_temp ++
      checkMetric "humidity" humMsg (some doc.rh_pct) th.max_humidity ++
      checkMetric "gas" gasMsg doc.co2_ppm_est th.max_gas,
      ∃ v m, b.value = AlertValue.metricVal v m := by
    intro b hb
    rcases List.mem_append.1 hb with hb | hb
    · rcases List.mem_append.1 hb with hb | hb
      · exact checkMetric_value _ _ _ _ b hb
      · exact checkMetric_value _ _ _ _ b hb
    · exact checkMetric_value _ _ _ _ b hb
  rcases anomaly with _ | ⟨flag, s⟩
  · intro h
    exact Or.inl (hbase a h)
  · cases flag with
    | false =>
      intro h
      exact Or.inl (hbase a h)
    | true =>
      intro h
      rcases List.mem_append.1 h with h | h
      · exact Or.inl (hbase a h)
      · rcases List.mem_cons.1 h with rfl | h
        · exact Or.inr ⟨s, rfl⟩
        · cases h

/-- C10 (implicit): on an accepted reading, the alerts passed to the
notification dispatcher are exactly the alert documents built from the
threshold-rule and anomaly candidates, and every alert written by the
luminosity event detector is persisted to the alert store but never
passed to `notify_alert` in that cycle (thing_speak.py invokes
`notify_alert` only inside the loop over `alerts` at lines 209-223;
the luminosity alerts of lines 146-176 are only inserted). -/
theorem C10_detector_alerts_not_dispatched (dark openThr minSec : ℚ)
    (th : Thresholds) (fetchLast : Option (Option ReadingDoc))
    (anomaly : Option (Bool × ℚ)) (doc : ReadingDoc)
    (hStore : dedupDecision minSec fetchLast doc = .store) :
    notifiedOf
        (fetch_and_store_effects dark openThr minSec th fetchLast anomaly
          doc) =
      (candidateAlerts th anomaly doc).map (mkAlertDoc doc.silo_id) ∧
    ∀ a, PipeEffect.insertAlert a ∈
        luminosityEffects dark openThr (prevLuxOf fetchLast) doc →
      PipeEffect.insertAlert a ∈
        fetch_and_store_effects dark openThr minSec th fetchLast anomaly
          doc ∧
      PipeEffect.notify a ∉
        fetch_and_store_effects dark openThr minSec th fetchLast anomaly
          doc := by
  have heff : fetch_and_store_effects dark openThr minSec th fetchLast
      anomaly doc =
      PipeEffect.insertReading doc ::
        (luminosityEffects dark openThr (prevLuxOf fetchLast) doc ++
         postProcessEffects doc.silo_id (candidateAlerts th anomaly doc)) := by
    unfold fetch_and_store_effects
    rw [hStore]
  constructor
  · rw [heff]
    have hcons : notifiedOf
        (PipeEffect.insertReading doc ::
          (luminosityEffects dark openThr (prevLuxOf fetchLast) doc ++
           postProcessEffects doc.silo_id (candidateAlerts th anomaly doc)))
        = notifiedOf
          (luminosityEffects dark openThr (prevLuxOf fetchLast) doc ++
           postProcessEffects doc.silo_id
             (candidateAlerts th anomaly doc)) := by
      simp [notifiedOf]
    rw [hcons, notifiedOf_append, notifiedOf_luminosity, notifiedOf_post]
    rfl
  · intro a ha
    constructor
    · rw [heff]
      exact List.mem_cons_of_mem _ (List.mem_append_left _ ha)
    · rw [heff]
      intro hmem
      rcases List.mem_cons.1 hmem with hmem | hmem
      · cases hmem
      rcases List.mem_append.1 hmem with hmem | hmem
      · exact notify_not_mem_luminosity dark openThr (prevLuxOf fetchLast)
          doc a hmem
      have hcand := notify_mem_post doc.silo_id
        (candidateAlerts th anomaly doc) a hmem
      simp only [List.mem_map] at hcand
      obtain ⟨c, hcmem, hca⟩ := hcand
      have hcval := candidate_value th anomaly doc c hcmem
      have hval : a.value = c.value := by rw [← hca]; rfl
      rcases insertAlert_lum_value dark openThr (prevLuxOf fetchLast) doc a
          ha with ⟨p, l, hlum⟩ | hlum <;>
        rcases hcval with ⟨v, m, hm⟩ | ⟨s, hm⟩ <;>
          rw [hlum, hm] at hval <;> exact AlertValue.noConfusion hval

/-- C10 witness: reading `w10doc` (temperature 35, luminosity flag 1)
against thresholds with only max_temp 30, with no prior reading: the
dispatched alerts are exactly the single critical temperature alert of
the threshold engine, while the critical luminosity alert is written
to the store and never dispatched. -/
theorem C10_detector_alerts_not_dispatched_witness :
    dedupDecision IDENTICAL_READINGS_MIN_SECONDS (some none) w10doc
      = .store ∧
    (candidateAlerts ⟨some 30, none, none⟩ none w10doc).map
        (mkAlertDoc "s1") =
      [⟨"s1", "critical", tempMsg, .metricVal 35 30⟩] ∧
    notifiedOf (fetch_and_store_effects 10 100
        IDENTICAL_READINGS_MIN_SECONDS ⟨some 30, none, none⟩ (some none)
        none w10doc) =
      (candidateAlerts ⟨some 30, none, none⟩ none w10doc).map
        (mkAlertDoc "s1") ∧
    PipeEffect.insertAlert
        ⟨"s1", "critical", lumCritMsg, .lumFlag (some 150) (some 1)⟩ ∈
      fetch_and_store_effects 10 100 IDENTICAL_READINGS_MIN_SECONDS
        ⟨some 30, none, none⟩ (some none) none w10doc ∧
    PipeEffect.notify
        ⟨"s1", "critical", lumCritMsg, .lumFlag (some 150) (some 1)⟩ ∉
      fetch_and_store_effects 10 100 IDENTICAL_READINGS_MIN_SECONDS
        ⟨some 30, none, none⟩ (some none) none w10doc := by
  have h := C10_detector_alerts_not_dispatched 10 100
    IDENTICAL_READINGS_MIN_SECONDS ⟨some 30, none, none⟩ (some none) none
    w10doc rfl
  have hlum : PipeEffect.insertAlert
      ⟨"s1", "critical", lumCritMsg, .lumFlag (some 150) (some 1)⟩ ∈
      luminosityEffects 10 100 (prevLuxOf (some none)) w10doc := by
    decide
  have h2 := h.2 _ hlum
  exact ⟨rfl, by decide, h.1, h2.1, h2.2⟩

end SiloBackend
